import Mathlib

/-!
Shallow embedding of the FactoryMethod sample (CreatorInterface.py,
ConcreteCreators.py, main.py).  Python objects live on an explicit heap of
identifier/value pairs; method calls are functions threading that heap, and
fallible steps return `Except PyError`.  The product-side modules
(ProductInterface.py, ConcreteProducts.py) are repository code absent from the
staged source view, so their content is modelled from the specification where
needed; each such definition is marked `Modelled from the spec:` in its doc
comment.
-/

namespace FactoryMethod

/-- Python exceptions that the embedded program can raise. -/
inductive PyError where
  | typeError (msg : String)
  | attributeError (msg : String)
  | moduleNotFoundError (missing : String)
deriving DecidableEq, Repr

/-! ## Module layout and import resolution

The staged source view holds three Python files: `CreatorInterface.py`,
`ConcreteCreators.py` and `main.py`.  They import the repository's product
modules `ProductInterface` and `ConcreteProducts`, which are not part of the
staged view; per the specification those modules exist and define the product
hierarchy, so the program's full module set is modelled accordingly. -/

/-- The Python modules present in the staged source view. -/
def stagedModules : List String := ["CreatorInterface", "ConcreteCreators", "main"]

/-- Modelled from the spec: the repository's module set.  `ProductInterface`
and `ConcreteProducts` are repository modules absent only from the staged
view — the specification's data model and its working end-to-end scenario
describe them as present. -/
def repoModules : List String :=
  ["CreatorInterface", "ConcreteCreators", "main",
   "ProductInterface", "ConcreteProducts"]

/-- Standard-library modules that always import successfully (`abc`). -/
def stdlibModules : List String := ["abc"]

/-- The modules named by the `from X import ...` statements at the top of each
source file, in source order.  The entries for the two product modules are
modelled from the spec: `Transport` is an abstract capability (so
`ProductInterface` uses `abc`), and `Truck`/`Ship` are its variants (so
`ConcreteProducts` imports `ProductInterface`). -/
def moduleImports : String → List String
  | "CreatorInterface" => ["abc", "ProductInterface"]
  | "ConcreteCreators" => ["CreatorInterface", "ProductInterface", "ConcreteProducts"]
  | "main" => ["CreatorInterface", "ConcreteCreators"]
  | "ProductInterface" => ["abc"]
  | "ConcreteProducts" => ["ProductInterface"]
  | _ => []

/-- Loading a module of the program: a standard-library module succeeds, a
repository module first loads each of its imports in order, and any other
name raises `ModuleNotFoundError`.  `fuel` bounds the import depth. -/
def loadModule : Nat → String → Except PyError Unit
  | 0, _ => .error (.moduleNotFoundError "recursion limit")
  | fuel + 1, m =>
    if m ∈ stdlibModules then .ok ()
    else if m ∈ repoModules then
      (moduleImports m).foldl (fun acc d => acc.bind fun _ => loadModule fuel d) (.ok ())
    else .error (.moduleNotFoundError m)

/-! ## Classes -/

/-- Modelled from the spec: `ProductInterface.py` and `ConcreteProducts.py`
are absent from the staged source view, so the product hierarchy — abstract
`Transport` with the single abstract behavior `deliver`, and its stateless
concrete variants `Truck` and `Ship` — is taken from the specification (data
model and product-capability sections). -/
inductive TransportClass where
  | Transport
  | Truck
  | Ship
deriving DecidableEq, Repr

/-- Modelled from the spec: `deliver` is abstract on `Transport` and overridden
by both concrete variants, leaving no abstract method on `Truck` or `Ship`. -/
def TransportClass.abstractMethods : TransportClass → List String
  | .Transport => ["deliver"]
  | .Truck => []
  | .Ship => []

/-- Modelled from the spec: each concrete variant returns a fixed, distinct
human-readable description (a "by land in a box"-style message for `Truck`, a
"by sea in a container"-style message for `Ship`; the exact wording is
presentation detail).  The abstract `Transport` supplies no implementation. -/
def TransportClass.deliverImpl : TransportClass → Option String
  | .Transport => none
  | .Truck => some "Delivering by land in a box."
  | .Ship => some "Delivering by sea in a container."

/-- The creator classes: abstract `Logistics` (CreatorInterface.py) and its
subclasses `RoadLogistics`, `SeaLogistics` (ConcreteCreators.py). -/
inductive LogisticsClass where
  | Logistics
  | RoadLogistics
  | SeaLogistics
deriving DecidableEq, Repr

/-- `Logistics.create_transport` carries `@abstractmethod`
(CreatorInterface.py); both subclasses override it (ConcreteCreators.py), so
no abstract method remains on them. -/
def LogisticsClass.abstractMethods : LogisticsClass → List String
  | .Logistics => ["create_transport"]
  | .RoadLogistics => []
  | .SeaLogistics => []

/-- The methods each class body defines directly: `Logistics` defines
`create_transport` (abstract) and `plan_delivery`; each concrete creator
defines only `create_transport`. -/
def LogisticsClass.definedMethods : LogisticsClass → List String
  | .Logistics => ["create_transport", "plan_delivery"]
  | .RoadLogistics => ["create_transport"]
  | .SeaLogistics => ["create_transport"]

/-- Method resolution order: each concrete creator lists `Logistics` as its
sole base class. -/
def LogisticsClass.mro : LogisticsClass → List LogisticsClass
  | .Logistics => [.Logistics]
  | .RoadLogistics => [.RoadLogistics, .Logistics]
  | .SeaLogistics => [.SeaLogistics, .Logistics]

/-- The class whose body supplies method `name` for a receiver of class `c`:
the first class along the MRO defining it. -/
def LogisticsClass.resolveMethod (c : LogisticsClass) (name : String) :
    Option LogisticsClass :=
  c.mro.find? (fun d => d.definedMethods.contains name)

/-- Printable class names, as used in Python error messages. -/
def LogisticsClass.className : LogisticsClass → String
  | .Logistics => "Logistics"
  | .RoadLogistics => "RoadLogistics"
  | .SeaLogistics => "SeaLogistics"

/-- Printable class names for the product side. -/
def TransportClass.className : TransportClass → String
  | .Transport => "Transport"
  | .Truck => "Truck"
  | .Ship => "Ship"

/-! ## Heap of Python objects -/

/-- A Python object: its class together with its attribute dictionary.  No
class in the program defines `__init__` or assigns attributes, so the
dictionary stays empty on every path; it is carried so that mutation claims
are about real object state. -/
inductive PyVal where
  | transportObj (cls : TransportClass) (attrs : List (String × String))
  | creatorObj (cls : LogisticsClass) (attrs : List (String × String))
deriving DecidableEq, Repr

/-- The heap: allocated objects keyed by identity, plus the next fresh id. -/
structure Heap where
  objs : List (Nat × PyVal)
  next : Nat
deriving DecidableEq, Repr

/-- Dereference an object id. -/
def Heap.lookup (h : Heap) (i : Nat) : Option PyVal :=
  (h.objs.find? (fun p => p.1 == i)).map Prod.snd

/-- Allocate a fresh object, returning the new heap and the object's id. -/
def Heap.alloc (h : Heap) (v : PyVal) : Heap × Nat :=
  (⟨(h.next, v) :: h.objs, h.next + 1⟩, h.next)

/-- Well-formedness: every allocated id is below the allocation counter. -/
def Heap.wf (h : Heap) : Prop := ∀ p ∈ h.objs, p.1 < h.next

instance (h : Heap) : Decidable h.wf :=
  inferInstanceAs (Decidable (∀ p ∈ h.objs, p.1 < h.next))

/-- The empty heap the program starts from. -/
def emptyHeap : Heap := ⟨[], 0⟩

/-! ## Methods and constructors -/

/-- Calling a creator class, `C()`.  Python's ABC machinery raises `TypeError`
while abstract methods remain unimplemented; otherwise a fresh object with an
empty attribute dictionary is allocated (no `__init__` exists anywhere). -/
def instantiateCreator (h : Heap) (c : LogisticsClass) :
    Except PyError (Heap × Nat) :=
  match c.abstractMethods with
  | [] => .ok (h.alloc (.creatorObj c []))
  | m :: _ =>
    .error (.typeError ("Cannot instantiate abstract class " ++ c.className ++
      " with abstract method " ++ m))

/-- Calling a product class, `T()`, under the same ABC rule.  (The concrete
bodies `Truck()` / `Ship()` come from ConcreteCreators.py; the abstract-class
check is modelled from the spec, the product modules being absent.) -/
def instantiateTransport (h : Heap) (c : TransportClass) :
    Except PyError (Heap × Nat) :=
  match c.abstractMethods with
  | [] => .ok (h.alloc (.transportObj c []))
  | m :: _ =>
    .error (.typeError ("Cannot instantiate abstract class " ++ c.className ++
      " with abstract method " ++ m))

/-- The method call `self.create_transport()`, dispatched on the receiver's
class: `RoadLogistics` returns `Truck()` and `SeaLogistics` returns `Ship()`
(ConcreteCreators.py); the abstract body in `Logistics` is `pass`, which
returns `None` (CreatorInterface.py), modelled as `none`. -/
def create_transport (h : Heap) (self : Nat) :
    Except PyError (Heap × Option Nat) :=
  match h.lookup self with
  | some (.creatorObj .RoadLogistics _) =>
    (instantiateTransport h .Truck).map (fun r => (r.1, some r.2))
  | some (.creatorObj .SeaLogistics _) =>
    (instantiateTransport h .Ship).map (fun r => (r.1, some r.2))
  | some (.creatorObj .Logistics _) => .ok (h, none)
  | _ => .error (.attributeError "create_transport")

/-- The method call `x.deliver()`.  A `none` receiver is Python's `None`
(the value of the abstract `create_transport` body), on which attribute
lookup raises; on a transport object the class's implementation runs. -/
def deliver (h : Heap) (x : Option Nat) : Except PyError String :=
  match x with
  | none => .error (.attributeError "NoneType object has no attribute deliver")
  | some i =>
    match h.lookup i with
    | some (.transportObj tc _) =>
      match tc.deliverImpl with
      | some s => .ok s
      | none => .error (.typeError "abstract method deliver invoked")
    | _ => .error (.attributeError "deliver")

/-- `Logistics.plan_delivery` (CreatorInterface.py, lines 9-11):
`transport = self.create_transport()`, then `return transport.deliver()`.
The transport is bound to a local variable only; nothing is stored. -/
def plan_delivery (h : Heap) (self : Nat) : Except PyError (Heap × String) :=
  match create_transport h self with
  | .error e => .error e
  | .ok (h1, transport) =>
    match deliver h1 transport with
    | .error e => .error e
    | .ok s => .ok (h1, s)

/-- `client_code(logistics)` (main.py): prints `logistics.plan_delivery()`.
The returned string is the text appended to stdout; `print` adds a newline. -/
def client_code (h : Heap) (self : Nat) : Except PyError (Heap × String) :=
  match plan_delivery h self with
  | .error e => .error e
  | .ok (h1, s) => .ok (h1, s ++ "\n")

/-- The `__main__` block of main.py, run from the empty heap: two announce
prints interleaved with `client_code(RoadLogistics())` and
`client_code(SeaLogistics())`.  The result is the full stdout text; `.ok`
models exit status 0, `.error` an uncaught exception. -/
def runMain : Except PyError String :=
  match instantiateCreator emptyHeap .RoadLogistics with
  | .error e => .error e
  | .ok (h1, road) =>
    match client_code h1 road with
    | .error e => .error e
    | .ok (h2, out1) =>
      match instantiateCreator h2 .SeaLogistics with
      | .error e => .error e
      | .ok (h3, sea) =>
        match client_code h3 sea with
        | .error e => .error e
        | .ok (_, out2) =>
          .ok (("App: Launched with RoadLogistics." ++ "\n") ++ out1 ++
            ("\nApp: Launched with SeaLogistics." ++ "\n") ++ out2)

/-- The pipeline `C().plan_delivery()`, keeping only the result string. -/
def planDeliveryOfFresh (h : Heap) (c : LogisticsClass) :
    Except PyError String :=
  match instantiateCreator h c with
  | .error e => .error e
  | .ok (h1, i) =>
    match plan_delivery h1 i with
    | .error e => .error e
    | .ok (_, s) => .ok s

/-- The pipeline `C().create_transport().deliver()`, keeping only the result
string. -/
def createThenDeliverOfFresh (h : Heap) (c : LogisticsClass) :
    Except PyError String :=
  match instantiateCreator h c with
  | .error e => .error e
  | .ok (h1, i) =>
    match create_transport h1 i with
    | .error e => .error e
    | .ok (h2, transport) => deliver h2 transport

/-- A well-formed demonstration heap holding one `RoadLogistics` object. -/
def roadHeap : Heap := ⟨[(0, .creatorObj .RoadLogistics [])], 1⟩

/-- The heap left by `plan_delivery` on the object of `roadHeap`: the fresh
`Truck` is the only addition. -/
def roadHeap2 : Heap :=
  ⟨[(1, .transportObj .Truck []), (0, .creatorObj .RoadLogistics [])], 2⟩

/-! ## Heap lemmas -/

theorem Heap.lookup_cons_eq (os : List (Nat × PyVal)) (nx i : Nat) (v : PyVal) :
    Heap.lookup ⟨(i, v) :: os, nx⟩ i = some v := by
  simp [Heap.lookup, List.find?]

theorem Heap.lookup_cons_ne (os : List (Nat × PyVal)) (nx i j : Nat) (v : PyVal)
    (hij : j ≠ i) :
    Heap.lookup ⟨(j, v) :: os, nx⟩ i = Heap.lookup ⟨os, nx⟩ i := by
  have hb : (j == i) = false := by simp [hij]
  simp [Heap.lookup, List.find?, hb]

theorem Heap.lookup_eq_none_of_le (h : Heap) (hw : h.wf) {i : Nat}
    (hi : h.next ≤ i) : h.lookup i = none := by
  have hf : h.objs.find? (fun p => p.1 == i) = none := by
    rw [List.find?_eq_none]
    intro p hp
    have hlt := hw p hp
    simp only [beq_iff_eq]
    omega
  simp [Heap.lookup, hf]

theorem Heap.wf_alloc (h : Heap) (v : PyVal) (hw : h.wf) : (h.alloc v).1.wf := by
  intro p hp
  rcases List.mem_cons.1 hp with rfl | hmem
  · exact Nat.lt_succ_self _
  · exact Nat.lt_succ_of_lt (hw p hmem)

/-! ## Claims -/

/-- Claim C1: for every concrete creator variant `C` (`RoadLogistics` and
`SeaLogistics`), `C().plan_delivery()` returns exactly the same string as
`C().create_transport().deliver()`: `plan_delivery` invokes `create_transport`
on self, invokes `deliver` on the result, and returns that result unchanged. -/
theorem claim1_plan_delivery_is_create_then_deliver (h : Heap)
    (c : LogisticsClass) (hc : c ≠ .Logistics) :
    planDeliveryOfFresh h c = createThenDeliverOfFresh h c := by
  cases c with
  | Logistics => exact absurd rfl hc
  | RoadLogistics =>
    simp [planDeliveryOfFresh, createThenDeliverOfFresh, instantiateCreator,
      LogisticsClass.abstractMethods, plan_delivery, create_transport,
      instantiateTransport, TransportClass.abstractMethods, deliver, Except.map,
      TransportClass.deliverImpl, Heap.alloc, Heap.lookup, List.find?]
  | SeaLogistics =>
    simp [planDeliveryOfFresh, createThenDeliverOfFresh, instantiateCreator,
      LogisticsClass.abstractMethods, plan_delivery, create_transport,
      instantiateTransport, TransportClass.abstractMethods, deliver, Except.map,
      TransportClass.deliverImpl, Heap.alloc, Heap.lookup, List.find?]

theorem claim1_witness :
    (LogisticsClass.RoadLogistics ≠ LogisticsClass.Logistics) ∧
    planDeliveryOfFresh emptyHeap .RoadLogistics =
      createThenDeliverOfFresh emptyHeap .RoadLogistics :=
  ⟨by decide, claim1_plan_delivery_is_create_then_deliver emptyHeap
    .RoadLogistics (by decide)⟩

/-- Claim C2: the entry point run with no arguments writes exactly two blocks
to stdout — the `RoadLogistics` announcement line and the Truck delivery
description, a blank line, then the `SeaLogistics` announcement line and the
Ship delivery description — and exits with status 0 (`.ok`). -/
theorem claim2_entry_point_output :
    runMain = .ok ("App: Launched with RoadLogistics." ++ "\n" ++
      "Delivering by land in a box." ++ "\n" ++ "\n" ++
      "App: Launched with SeaLogistics." ++ "\n" ++
      "Delivering by sea in a container." ++ "\n") := by
  rfl

/-- Claim C3, counterexample: the claim as stated is false of the program.
`ProductInterface` and `ConcreteProducts` are repository modules — absent
only from the staged source view, and modelled from the spec as the
Modelled-from-spec rule directs — so loading the entry point module succeeds
instead of failing with a module-not-found error. -/
theorem claim3_counterexample :
    "ProductInterface" ∈ repoModules ∧
    "ConcreteProducts" ∈ repoModules ∧
    loadModule 8 "main" = .ok () :=
  ⟨by decide, by decide, rfl⟩

/-- Claim C3, amended: the modules `ProductInterface` and `ConcreteProducts`
(defining `Transport`, `Truck`, `Ship`) are absent from the staged source
view, but they are repository modules per the spec; with them present all
imports resolve, and loading each of the three staged modules — the entry
point included — succeeds rather than failing. -/
theorem claim3_amended_loading_succeeds :
    "ProductInterface" ∉ stagedModules ∧
    "ConcreteProducts" ∉ stagedModules ∧
    "ProductInterface" ∈ repoModules ∧
    "ConcreteProducts" ∈ repoModules ∧
    loadModule 8 "CreatorInterface" = .ok () ∧
    loadModule 8 "ConcreteCreators" = .ok () ∧
    loadModule 8 "main" = .ok () :=
  ⟨by decide, by decide, by decide, by decide, rfl, rfl, rfl⟩

/-- Claim C4: every call to `RoadLogistics().plan_delivery()` yields the Truck
delivery description, every call to `SeaLogistics().plan_delivery()` yields
the Ship delivery description, and the two descriptions differ. -/
theorem claim4_variant_descriptions (h : Heap) :
    (∃ s, TransportClass.deliverImpl .Truck = some s ∧
      planDeliveryOfFresh h .RoadLogistics = .ok s) ∧
    (∃ s, TransportClass.deliverImpl .Ship = some s ∧
      planDeliveryOfFresh h .SeaLogistics = .ok s) ∧
    TransportClass.deliverImpl .Truck ≠ TransportClass.deliverImpl .Ship := by
  refine ⟨⟨_, rfl, ?_⟩, ⟨_, rfl, ?_⟩, by decide⟩ <;>
    simp [planDeliveryOfFresh, instantiateCreator,
      LogisticsClass.abstractMethods, plan_delivery, create_transport,
      instantiateTransport, TransportClass.abstractMethods, deliver, Except.map,
      TransportClass.deliverImpl, Heap.alloc, Heap.lookup, List.find?]

/-- Claim C8: neither concrete creator defines `plan_delivery`; for every
creator class, method resolution finds `plan_delivery` in the body of the
abstract `Logistics` class, so the concrete variants use exactly the fixed
template. -/
theorem claim8_plan_delivery_never_overridden :
    (∀ c : LogisticsClass,
      c.resolveMethod "plan_delivery" = some .Logistics) ∧
    "plan_delivery" ∉ LogisticsClass.definedMethods .RoadLogistics ∧
    "plan_delivery" ∉ LogisticsClass.definedMethods .SeaLogistics ∧
    "plan_delivery" ∈ LogisticsClass.definedMethods .Logistics := by
  refine ⟨fun c => ?_, by decide, by decide, by decide⟩
  cases c <;> rfl

/-- Claim C5: constructing the abstract `Logistics` type (and likewise the
abstract `Transport` type) fails with a `TypeError` naming the abstract
operation, so its abstract `create_transport` can never be invoked through an
instance; this is the only error condition — instantiating any concrete class
and running `plan_delivery` on a fresh concrete creator succeed. -/
theorem claim5_abstract_invocation_fails (h : Heap) :
    instantiateCreator h .Logistics = .error (.typeError
      "Cannot instantiate abstract class Logistics with abstract method create_transport") ∧
    instantiateTransport h .Transport = .error (.typeError
      "Cannot instantiate abstract class Transport with abstract method deliver") ∧
    (∃ r, instantiateCreator h .RoadLogistics = .ok r) ∧
    (∃ r, instantiateCreator h .SeaLogistics = .ok r) ∧
    (∃ r, instantiateTransport h .Truck = .ok r) ∧
    (∃ r, instantiateTransport h .Ship = .ok r) ∧
    (∃ s, planDeliveryOfFresh h .RoadLogistics = .ok s) ∧
    (∃ s, planDeliveryOfFresh h .SeaLogistics = .ok s) := by
  refine ⟨rfl, rfl, ⟨_, rfl⟩, ⟨_, rfl⟩, ⟨_, rfl⟩, ⟨_, rfl⟩,
    ⟨"Delivering by land in a box.", ?_⟩,
    ⟨"Delivering by sea in a container.", ?_⟩⟩ <;>
    simp [planDeliveryOfFresh, instantiateCreator,
      LogisticsClass.abstractMethods, plan_delivery, create_transport,
      instantiateTransport, TransportClass.abstractMethods, deliver, Except.map,
      TransportClass.deliverImpl, Heap.alloc, Heap.lookup, List.find?]

/-- Claim C6: `RoadLogistics.create_transport` returns a newly allocated
`Truck` instance and `SeaLogistics.create_transport` a newly allocated `Ship`
instance; each call adds exactly that one product object to the heap. -/
theorem claim6_create_transport_new_product (h : Heap) (hw : h.wf) :
    (∃ h1 i h2 t, instantiateCreator h .RoadLogistics = .ok (h1, i) ∧
      create_transport h1 i = .ok (h2, some t) ∧
      h2.lookup t = some (.transportObj .Truck []) ∧
      h1.lookup t = none ∧
      h2.objs = (t, .transportObj .Truck []) :: h1.objs) ∧
    (∃ h1 i h2 t, instantiateCreator h .SeaLogistics = .ok (h1, i) ∧
      create_transport h1 i = .ok (h2, some t) ∧
      h2.lookup t = some (.transportObj .Ship []) ∧
      h1.lookup t = none ∧
      h2.objs = (t, .transportObj .Ship []) :: h1.objs) := by
  constructor
  · refine ⟨⟨(h.next, .creatorObj .RoadLogistics []) :: h.objs, h.next + 1⟩,
      h.next,
      ⟨(h.next + 1, .transportObj .Truck []) ::
        (h.next, .creatorObj .RoadLogistics []) :: h.objs, h.next + 1 + 1⟩,
      h.next + 1, rfl, ?_, ?_, ?_, rfl⟩
    · simp [create_transport, instantiateTransport,
        TransportClass.abstractMethods, Except.map, Heap.alloc, Heap.lookup,
        List.find?]
    · exact Heap.lookup_cons_eq _ _ _ _
    · exact Heap.lookup_eq_none_of_le _
        (Heap.wf_alloc h (.creatorObj .RoadLogistics []) hw) (Nat.le_refl _)
  · refine ⟨⟨(h.next, .creatorObj .SeaLogistics []) :: h.objs, h.next + 1⟩,
      h.next,
      ⟨(h.next + 1, .transportObj .Ship []) ::
        (h.next, .creatorObj .SeaLogistics []) :: h.objs, h.next + 1 + 1⟩,
      h.next + 1, rfl, ?_, ?_, ?_, rfl⟩
    · simp [create_transport, instantiateTransport,
        TransportClass.abstractMethods, Except.map, Heap.alloc, Heap.lookup,
        List.find?]
    · exact Heap.lookup_cons_eq _ _ _ _
    · exact Heap.lookup_eq_none_of_le _
        (Heap.wf_alloc h (.creatorObj .SeaLogistics []) hw) (Nat.le_refl _)

theorem claim6_witness :
    ∃ h1 i h2 t, instantiateCreator emptyHeap .RoadLogistics = .ok (h1, i) ∧
      create_transport h1 i = .ok (h2, some t) ∧
      h2.lookup t = some (.transportObj .Truck []) ∧
      h1.lookup t = none ∧
      h2.objs = (t, .transportObj .Truck []) :: h1.objs :=
  (claim6_create_transport_new_product emptyHeap (by decide)).1

/-- Claim C7: on two separately constructed instances of the same concrete
creator variant, `plan_delivery` returns identical strings — the result
depends only on the variant, not on the instance. -/
theorem claim7_plan_delivery_deterministic (h : Heap) (c : LogisticsClass)
    (hc : c ≠ .Logistics) :
    ∃ h1 i1 h2 i2 s,
      instantiateCreator h c = .ok (h1, i1) ∧
      instantiateCreator h1 c = .ok (h2, i2) ∧
      i1 ≠ i2 ∧
      (∃ g1, plan_delivery h2 i1 = .ok (g1, s)) ∧
      (∃ g2, plan_delivery h2 i2 = .ok (g2, s)) := by
  have e1 : (h.next + 1 == h.next) = false := by simp
  cases c with
  | Logistics => exact absurd rfl hc
  | RoadLogistics =>
    refine ⟨_, h.next, _, h.next + 1, "Delivering by land in a box.",
      rfl, rfl, by omega,
      ⟨⟨(h.next + 1 + 1, .transportObj .Truck []) ::
          (h.next + 1, .creatorObj .RoadLogistics []) ::
          (h.next, .creatorObj .RoadLogistics []) :: h.objs,
        h.next + 1 + 1 + 1⟩, ?_⟩,
      ⟨⟨(h.next + 1 + 1, .transportObj .Truck []) ::
          (h.next + 1, .creatorObj .RoadLogistics []) ::
          (h.next, .creatorObj .RoadLogistics []) :: h.objs,
        h.next + 1 + 1 + 1⟩, ?_⟩⟩ <;>
      simp [plan_delivery, create_transport, instantiateCreator,
        LogisticsClass.abstractMethods, instantiateTransport,
        TransportClass.abstractMethods, deliver, Except.map,
        TransportClass.deliverImpl, Heap.alloc, Heap.lookup, List.find?, e1]
  | SeaLogistics =>
    refine ⟨_, h.next, _, h.next + 1, "Delivering by sea in a container.",
      rfl, rfl, by omega,
      ⟨⟨(h.next + 1 + 1, .transportObj .Ship []) ::
          (h.next + 1, .creatorObj .SeaLogistics []) ::
          (h.next, .creatorObj .SeaLogistics []) :: h.objs,
        h.next + 1 + 1 + 1⟩, ?_⟩,
      ⟨⟨(h.next + 1 + 1, .transportObj .Ship []) ::
          (h.next + 1, .creatorObj .SeaLogistics []) ::
          (h.next, .creatorObj .SeaLogistics []) :: h.objs,
        h.next + 1 + 1 + 1⟩, ?_⟩⟩ <;>
      simp [plan_delivery, create_transport, instantiateCreator,
        LogisticsClass.abstractMethods, instantiateTransport,
        TransportClass.abstractMethods, deliver, Except.map,
        TransportClass.deliverImpl, Heap.alloc, Heap.lookup, List.find?, e1]

theorem claim7_witness :
    ∃ h1 i1 h2 i2 s,
      instantiateCreator emptyHeap .SeaLogistics = .ok (h1, i1) ∧
      instantiateCreator h1 .SeaLogistics = .ok (h2, i2) ∧
      i1 ≠ i2 ∧
      (∃ g1, plan_delivery h2 i1 = .ok (g1, s)) ∧
      (∃ g2, plan_delivery h2 i2 = .ok (g2, s)) :=
  claim7_plan_delivery_deterministic emptyHeap .SeaLogistics (by decide)

/-- Claim C10: constructing `RoadLogistics()` or `SeaLogistics()` succeeds
because each overrides the sole abstract method `create_transport` (method
resolution finds it in the subclass body, and no abstract method remains), so
`plan_delivery` on a fresh concrete creator never hits the abstract-operation
error. -/
theorem claim10_concrete_construction_succeeds (h : Heap) :
    LogisticsClass.abstractMethods .RoadLogistics = [] ∧
    LogisticsClass.abstractMethods .SeaLogistics = [] ∧
    LogisticsClass.resolveMethod .RoadLogistics "create_transport" =
      some .RoadLogistics ∧
    LogisticsClass.resolveMethod .SeaLogistics "create_transport" =
      some .SeaLogistics ∧
    (∃ r, instantiateCreator h .RoadLogistics = .ok r) ∧
    (∃ r, instantiateCreator h .SeaLogistics = .ok r) ∧
    (∃ s, planDeliveryOfFresh h .RoadLogistics = .ok s) ∧
    (∃ s, planDeliveryOfFresh h .SeaLogistics = .ok s) := by
  refine ⟨rfl, rfl, rfl, rfl, ⟨_, rfl⟩, ⟨_, rfl⟩,
    ⟨"Delivering by land in a box.", ?_⟩,
    ⟨"Delivering by sea in a container.", ?_⟩⟩ <;>
    simp [planDeliveryOfFresh, instantiateCreator,
      LogisticsClass.abstractMethods, plan_delivery, create_transport,
      instantiateTransport, TransportClass.abstractMethods, deliver, Except.map,
      TransportClass.deliverImpl, Heap.alloc, Heap.lookup, List.find?]

theorem plan_delivery_extends (h : Heap) (self : Nat) (h2 : Heap) (s : String)
    (hrun : plan_delivery h self = .ok (h2, s)) :
    ∃ tc : TransportClass,
      h2.objs = (h.next, .transportObj tc []) :: h.objs ∧
      h2.next = h.next + 1 := by
  unfold plan_delivery create_transport at hrun
  cases hsl : h.lookup self with
  | none => rw [hsl] at hrun; cases hrun
  | some v =>
    rw [hsl] at hrun
    cases v with
    | transportObj tc attrs => cases hrun
    | creatorObj c attrs =>
      cases c with
      | Logistics => simp [deliver] at hrun
      | RoadLogistics =>
        simp only [instantiateTransport, TransportClass.abstractMethods,
          Except.map, Heap.alloc, deliver, Heap.lookup_cons_eq,
          TransportClass.deliverImpl] at hrun
        have hpair := Except.ok.inj hrun
        injection hpair with hh hs
        subst hh
        exact ⟨.Truck, rfl, rfl⟩
      | SeaLogistics =>
        simp only [instantiateTransport, TransportClass.abstractMethods,
          Except.map, Heap.alloc, deliver, Heap.lookup_cons_eq,
          TransportClass.deliverImpl] at hrun
        have hpair := Except.ok.inj hrun
        injection hpair with hh hs
        subst hh
        exact ⟨.Ship, rfl, rfl⟩

/-- Claim C9: no operation mutates any object.  A successful `plan_delivery`
or `client_code` call leaves every pre-existing object untouched: the
resulting heap is exactly the starting heap extended by the one transport
object created inside `plan_delivery` (bound to a local only, allocated at a
fresh identity, carrying no attributes), and well-formedness is preserved. -/
theorem claim9_no_mutation (h : Heap) (self : Nat) (h2 : Heap) (s : String)
    (hrun : plan_delivery h self = .ok (h2, s) ∨
      client_code h self = .ok (h2, s)) :
    ∃ tc : TransportClass,
      h2.objs = (h.next, .transportObj tc []) :: h.objs ∧
      h2.next = h.next + 1 ∧
      (h.wf → h.lookup h.next = none ∧ h2.wf) := by
  have hpd : ∃ s0, plan_delivery h self = .ok (h2, s0) := by
    rcases hrun with hr | hr
    · exact ⟨s, hr⟩
    · unfold client_code at hr
      cases hp : plan_delivery h self with
      | error e => rw [hp] at hr; cases hr
      | ok p =>
        obtain ⟨g, s0⟩ := p
        rw [hp] at hr
        have hpair : (g, s0 ++ "\n") = (h2, s) := Except.ok.inj hr
        have hg : g = h2 := congrArg Prod.fst hpair
        exact ⟨s0, by rw [hg]⟩
  obtain ⟨s0, hpd⟩ := hpd
  obtain ⟨tc, hobjs, hnext⟩ := plan_delivery_extends h self h2 s0 hpd
  refine ⟨tc, hobjs, hnext, fun hw =>
    ⟨Heap.lookup_eq_none_of_le h hw (Nat.le_refl _), ?_⟩⟩
  intro p hp
  rw [hnext]
  rw [hobjs] at hp
  rcases List.mem_cons.1 hp with rfl | hmem
  · exact Nat.lt_succ_self _
  · exact Nat.lt_succ_of_lt (hw p hmem)

theorem claim9_witness :
    ∃ tc : TransportClass,
      roadHeap2.objs = (roadHeap.next, .transportObj tc []) :: roadHeap.objs ∧
      roadHeap2.next = roadHeap.next + 1 ∧
      (roadHeap.wf → roadHeap.lookup roadHeap.next = none ∧ roadHeap2.wf) :=
  claim9_no_mutation roadHeap 0 roadHeap2 "Delivering by land in a box."
    (Or.inl rfl)

end FactoryMethod
